import Mathlib

/-!
# EcoPulse AI dashboards: live-refresh logic

Shallow embedding of the two browser scripts of the repository:

* `src/static/js/live_updates.js`   (namespace `LiveUpdates`)
* `src/ui/static/js/dashboard.js`   (namespace `Dashboard`)

Conventions of the embedding.

* A JSON number is a rational (`ℚ`); the order comparisons of the scripts are
  the order of `ℚ`, and the one product `temperature * aqi / 100` is exact.
  A value read from a field that may be missing is a `JSVal`
  (`undefined`, `NaN`, or a number).
* The page is a record with one field per element the scripts write to.
  Elements the scripts test for (`if (!container) return`) are `Option`s,
  elements they dereference unguarded are always there.
* Text written by a script is kept as the value that is formatted (`Txt`),
  not as characters.
* Ids are looked up in the whole page: the elements outside the incident rows,
  the rows, and the elements inside the rows. What the browser's HTML parser
  makes of the markup of a new row is a parameter (`markupIds`).
* A `try { … } catch (e) { console.error(…) }` is an explicit case split: on a
  fault the writes made so far stay, the rest of the body is skipped and one
  line is appended to `console`.
-/

set_option autoImplicit false

/-! ## JavaScript values -/

/-- Value of a numeric field that may be missing, or of arithmetic on such fields. -/
inductive JSVal
  | undefined
  | nan
  | num (q : ℚ)
  deriving DecidableEq, Repr

namespace JSVal

/-- Property read `obj.field` of a numeric field that may be missing. -/
def ofField : Option ℚ → JSVal
  | none => undefined
  | some q => num q

/-- Truthiness (`ToBoolean`): `undefined`, `NaN` and `0` are falsy. -/
def truthy : JSVal → Bool
  | undefined => false
  | nan => false
  | num q => decide (q ≠ 0)

/-- The JavaScript operator `a || b`. -/
def or (a b : JSVal) : JSVal :=
  if a.truthy then a else b

/-- The JavaScript operator `a * b` (`undefined` converts to `NaN`). -/
def mul : JSVal → JSVal → JSVal
  | num a, num b => num (a * b)
  | _, _ => nan

/-- The JavaScript operator `a + b` on numeric operands. -/
def add : JSVal → JSVal → JSVal
  | num a, num b => num (a + b)
  | _, _ => nan

/-- The JavaScript operator `a / d` for a non-zero numeric literal `d`. -/
def divLit : JSVal → ℚ → JSVal
  | num a, d => num (a / d)
  | _, _ => nan

/-- The JavaScript comparison `a > k` against a numeric literal (false on `NaN`). -/
def gtLit : JSVal → ℚ → Bool
  | num a, k => decide (a > k)
  | _, _ => false

end JSVal

/-- Rounding of `Math.round`: nearest integer, ties towards plus infinity. -/
def mathRound (x : ℚ) : Int :=
  Rat.floor (x + 1 / 2)

/-- The call `Math.round(a)` (`NaN` when `a` is not a number). -/
def JSVal.round : JSVal → JSVal
  | JSVal.num a => JSVal.num (mathRound a)
  | _ => JSVal.nan

/-- The JavaScript operator `a - b`. -/
def JSVal.sub : JSVal → JSVal → JSVal
  | JSVal.num a, JSVal.num b => JSVal.num (a - b)
  | _, _ => JSVal.nan

/-- Text or style value assigned to an element, kept as the formatted value. -/
inductive Txt
  | lit (s : String)
  | int (n : Int)
  | val (v : JSVal)
  | fixed1 (v : JSVal)
  | pct (t : Txt)
  | forecast (t : Txt)
  deriving DecidableEq, Repr

/-! ## The polled snapshot -/

/-- Field `attribution` of a reading; each share may be missing. -/
structure Attribution where
  traffic : Option ℚ
  industrial : Option ℚ
  wind_impact : Option ℚ
  temp_inversion : Option ℚ
  deriving DecidableEq, Repr

/-- Field `carbon_footprint` of a reading. -/
structure CarbonFootprint where
  total_equivalent : ℚ
  deriving DecidableEq, Repr

/-- Field `latest` of the payload. -/
structure Reading where
  aqi : ℚ
  pm25 : ℚ
  co2 : ℚ
  health_score : Option ℚ
  attribution : Option Attribution
  carbon_footprint : Option CarbonFootprint
  deriving DecidableEq, Repr

/-- One entry of `history`; every field the scripts read from it may be missing. -/
structure HistoryPoint where
  timestamp : Option String
  aqi : Option ℚ
  pm25 : Option ℚ
  temperature : Option ℚ
  heat_pollution_index : Option ℚ
  deriving DecidableEq, Repr

/-- One entry of `alerts`. -/
structure Alert where
  type : String
  level : String
  value : ℚ
  severity : Option String
  metric : Option String
  deriving DecidableEq, Repr

/-- Body of the response of `GET /api/metrics`. -/
structure Payload where
  latest : Option Reading
  history : Option (List HistoryPoint)
  alerts : Option (List Alert)
  forecast : Option ℚ
  error : Option String
  deriving DecidableEq, Repr

/-- The array method `xs.slice(-k)`: the last `k` elements, all of them if there are fewer. -/
def sliceLast {α : Type} (k : Nat) (xs : List α) : List α :=
  xs.drop (xs.length - k)

/-- The array method `xs.map(f)` for a callback that may throw: `none` as soon as one call
throws, else the array of results. -/
def mapThrowing {α β : Type} (f : α → Option β) : List α → Option (List β)
  | [] => some []
  | x :: xs =>
    match f x with
    | none => none
    | some y =>
      match mapThrowing f xs with
      | none => none
      | some ys => some (y :: ys)

/-- Pieces of a character list between occurrences of `c`, as `split(c)` returns them. -/
def splitOnChar (c : Char) : List Char → List (List Char)
  | [] => [[]]
  | x :: xs =>
    match splitOnChar c xs with
    | [] => [[]]
    | p :: ps => if x = c then [] :: p :: ps else (x :: p) :: ps

/-! ## `live_updates.js` -/

namespace LiveUpdates

/-- One element of the array `advisories` of `updateAdvisory`. -/
structure Advisory where
  group : String
  msg : String
  color : String
  icon : String
  deriving DecidableEq, Repr

/-- A row `<tr>` of the table `report-table`: its own id (empty when it has none), the ids
of the elements inside it, and what its cells show. -/
structure IncidentRow where
  id : String
  innerIds : List String
  pulse : Bool
  time : String
  type : String
  level : String
  value : ℚ
  deriving DecidableEq, Repr

/-- Data held by the module variable `trendChart` once the chart exists. -/
structure TrendChart where
  labels : List String
  aqiData : List JSVal
  interactionData : List JSVal
  deriving DecidableEq, Repr

/-- The page as `live_updates.js` sees it; `otherIds` are the ids of the elements of the
page that are not inside a row of `report-table`. -/
structure View where
  aqiVal : Txt
  pm25Val : Txt
  co2Val : Txt
  healthScore : Txt
  healthCircleOffset : Txt
  healthCircleColor : String
  aqiBadgeText : String
  aqiBadgeClass : String
  attrTrafficVal : Txt
  attrTrafficBar : Txt
  attrIndustrialVal : Txt
  attrIndustrialBar : Txt
  attrWindVal : Txt
  attrWindBar : Txt
  summaryText : String
  mapHook : Bool
  mapCalls : List ℚ
  carbonDay : Option Txt
  carbonBar : Txt
  advisoryContainer : Option (List Advisory)
  trendCanvas : Bool
  trendChart : Option TrendChart
  reportTable : Option (List IncidentRow)
  otherIds : List String
  console : List String
  deriving DecidableEq, Repr

/-- The array `advisories` that `updateAdvisory` fills by `push`. -/
def advisories (aqi : ℚ) : List Advisory :=
  if aqi > 200 then
    [ { group := "Elderly & Children", msg := "URGENT: Stay indoors. Hazardous levels.",
        color := "red", icon := "fa-triangle-exclamation" },
      { group := "Outdoor Workers", msg := "Limit shifts to 30 mins. N95 essential.",
        color := "red", icon := "fa-hard-hat" } ]
  else if aqi > 100 then
    [ { group := "Sensitive Citizens", msg := "Moderately high levels. Carry inhalers.",
        color := "amber", icon := "fa-lungs" } ]
  else
    [ { group := "Public Access", msg := "Air quality is healthy. Outdoor activity safe.",
        color := "emerald", icon := "fa-check-circle" } ]

/-- Function `updateAdvisory(aqi)`: replaces the content of `advisoryContainer`, one card
per advisory, when that element exists. -/
def updateAdvisory (aqi : ℚ) (v : View) : View :=
  match v.advisoryContainer with
  | none => v
  | some _ => { v with advisoryContainer := some (advisories aqi) }

/-- The label `h.timestamp.split('T')[1].substring(0, 5)`; `none` when the expression
throws (no timestamp, or no `T` in it). -/
def timeLabel (h : HistoryPoint) : Option String :=
  match h.timestamp with
  | none => none
  | some ts =>
    match splitOnChar 'T' ts.data with
    | _ :: p :: _ => some (String.mk (p.take 5))
    | _ => none

/-- The series value `h.heat_pollution_index || (h.temperature * h.aqi / 100) || 0`. -/
def interactionValue (h : HistoryPoint) : JSVal :=
  ((JSVal.ofField h.heat_pollution_index).or
    (((JSVal.ofField h.temperature).mul (JSVal.ofField h.aqi)).divLit 100)).or (JSVal.num 0)

/-- Function `updateTrendChart(history)`; `Except.error` when building the labels throws,
which happens before anything is written. -/
def updateTrendChart (history : List HistoryPoint) (v : View) : Except String View :=
  if v.trendCanvas = false then Except.ok v
  else
    match mapThrowing timeLabel (sliceLast 20 history) with
    | none => Except.error "TypeError"
    | some labels =>
      let aqiData := (sliceLast 20 history).map (fun h => JSVal.ofField h.aqi)
      let interactionData := (sliceLast 20 history).map interactionValue
      match v.trendChart with
      | none =>
        let chart : TrendChart :=
          { labels := labels, aqiData := aqiData, interactionData := interactionData }
        Except.ok { v with trendChart := some chart }
      | some chart =>
        let chart1 : TrendChart :=
          { chart with labels := labels, aqiData := aqiData, interactionData := interactionData }
        Except.ok { v with trendChart := some chart1 }

/-- The row id built by the template string: alert-, the type, a hyphen, the level. -/
def alertId (a : Alert) : String :=
  "alert-" ++ a.type ++ "-" ++ a.level

/-- The lookup `document.getElementById(id)` as a truth value: some element of the page
carries the id, be it an element outside the rows of the log, a row, or an element inside a
row. The ids looked up start with alert- and are never empty. -/
def getElementById (otherIds : List String) (rows : List IncidentRow) (id : String) : Bool :=
  otherIds.contains id || rows.any (fun r => r.id == id || r.innerIds.contains id)

/-- Body of the `forEach` callback of `updateIncidentLog` for one alert. The template pastes
`alert.type` and `alert.level` unescaped into `row.innerHTML`; `markupIds type level` are
the ids of the elements the browser creates inside the row when it parses that markup. -/
def insertAlert (markupIds : String → String → List String) (now : String)
    (otherIds : List String) (rows : List IncidentRow) (a : Alert) : List IncidentRow :=
  if getElementById otherIds rows (alertId a) then rows
  else
    { id := alertId a, innerIds := markupIds a.type a.level, pulse := true, time := now,
      type := a.type, level := a.level, value := a.value } :: rows

/-- Function `updateIncidentLog(alerts)`; `now` is the clock reading put in a new row. -/
def updateIncidentLog (markupIds : String → String → List String) (now : String)
    (alerts : Option (List Alert)) (v : View) : View :=
  match v.reportTable, alerts with
  | some rows, some (a :: rest) =>
    { v with reportTable := some ((a :: rest).foldl (insertAlert markupIds now v.otherIds) rows) }
  | _, _ => v

/-- Text of the AQI badge (step 2 of `updateDashboard`). -/
def badgeText (aqi : ℚ) : String :=
  if aqi < 100 then "Optimal" else if aqi < 200 then "Warning" else "Critical"

/-- Class of the AQI badge. -/
def badgeClass (aqi : ℚ) : String :=
  if aqi < 100 then
    "px-3 py-1 bg-emerald-100 text-emerald-600 rounded-lg text-[10px] font-bold uppercase"
  else if aqi < 200 then
    "px-3 py-1 bg-amber-100 text-amber-600 rounded-lg text-[10px] font-bold uppercase"
  else
    "px-3 py-1 bg-red-100 text-red-600 rounded-lg text-[10px] font-bold uppercase"

/-- Colour of the health circle. -/
def circleColor (aqi : ℚ) : String :=
  if aqi < 100 then "#2ECC71" else if aqi < 200 then "#F1C40F" else "#E74C3C"

/-- Steps 1 and 2 of `updateDashboard`: sensor cards, health score and badge. -/
def sensorsAndBadge (latest : Reading) (v : View) : View :=
  let healthScore := ((JSVal.ofField latest.health_score).or (JSVal.num 0)).round
  { v with
    aqiVal := Txt.int (mathRound latest.aqi)
    pm25Val := Txt.fixed1 (JSVal.num latest.pm25)
    co2Val := Txt.int (mathRound latest.co2)
    healthScore := Txt.val healthScore
    healthCircleOffset :=
      Txt.val ((JSVal.num 226).sub (((JSVal.num 226).mul healthScore).divLit 100))
    aqiBadgeText := badgeText latest.aqi
    aqiBadgeClass := badgeClass latest.aqi
    healthCircleColor := circleColor latest.aqi }

/-- Step 3 of `updateDashboard`: the attribution bars, guarded by `if (latest.attribution)`. -/
def attributionBars (latest : Reading) (v : View) : View :=
  match latest.attribution with
  | none => v
  | some attr =>
    let wind := (JSVal.ofField attr.wind_impact).add (JSVal.ofField attr.temp_inversion)
    { v with
      attrTrafficVal := Txt.pct (Txt.val (JSVal.ofField attr.traffic))
      attrTrafficBar := Txt.pct (Txt.val (JSVal.ofField attr.traffic))
      attrIndustrialVal := Txt.pct (Txt.val (JSVal.ofField attr.industrial))
      attrIndustrialBar := Txt.pct (Txt.val (JSVal.ofField attr.industrial))
      attrWindVal := Txt.pct (Txt.fixed1 wind)
      attrWindBar := Txt.pct (Txt.val wind) }

/-- Sentence chosen by step 4 of `updateDashboard` from an attribution record. -/
def summarySentence (attr : Attribution) : String :=
  if (JSVal.ofField attr.traffic).gtLit 40 then
    "System Analysis: Pollution surge driven primarily by increasing traffic density in central corridors."
  else if (JSVal.ofField attr.wind_impact).gtLit 30 then
    "System Analysis: Critical atmospheric stagnation detected. Pollutants are failing to disperse due to low wind."
  else
    "System Analysis: Environmental state is currently stable with normal industrial loading."

/-- Step 5 of `updateDashboard`: the optional map hook and the carbon card. -/
def mapAndCarbon (latest : Reading) (v : View) : View :=
  let v1 := if v.mapHook then { v with mapCalls := v.mapCalls ++ [latest.aqi] } else v
  match v1.carbonDay, latest.carbon_footprint with
  | some _, some cf =>
    { v1 with
      carbonDay := some (Txt.val (JSVal.num cf.total_equivalent))
      carbonBar := Txt.pct (Txt.val (JSVal.num (min 100 (cf.total_equivalent / 5000 * 100)))) }
  | _, _ => v1

/-- The handler `catch (error) { console.error("Pulse sync failure:", error) }`. -/
def logFailure (v : View) : View :=
  { v with console := v.console ++ ["Pulse sync failure:"] }

/-- Function `updateDashboard()` of `live_updates.js` for one response; `none` is a
request whose `fetch` or `json()` rejected, `now` the clock reading for new rows and
`markupIds` the ids the browser finds in the markup of a new row. -/
def updateDashboard (markupIds : String → String → List String) (now : String)
    (response : Option Payload) (v : View) : View :=
  match response with
  | none => logFailure v
  | some rootData =>
    match rootData.latest with
    | none => v
    | some latest =>
      let history := rootData.history.getD []
      let v3 := attributionBars latest (sensorsAndBadge latest v)
      match latest.attribution with
      | none => logFailure v3
      | some attr =>
        let v4 := { v3 with summaryText := summarySentence attr }
        let v6 := updateAdvisory latest.aqi (mapAndCarbon latest v4)
        match (if history.length > 0 then updateTrendChart history v6 else Except.ok v6) with
        | Except.error _ => logFailure v6
        | Except.ok v7 => updateIncidentLog markupIds now rootData.alerts v7

end LiveUpdates

/-! ## `dashboard.js` -/

namespace Dashboard

/-- An entry of the object `metricConfig`. -/
structure MetricCfg where
  label : String
  color : String
  gradient : String × String
  deriving DecidableEq, Repr

/-- The object `metricConfig`, as a lookup by key; `none` where the lookup gives no entry. -/
def metricConfig (key : String) : Option MetricCfg :=
  if key = "aqi" then
    some { label := "AQI Index", color := "#10b981",
           gradient := ("rgba(16, 185, 129, 0.4)", "rgba(16, 185, 129, 0)") }
  else if key = "pm25" then
    some { label := "PM 2.5", color := "#06b6d4",
           gradient := ("rgba(6, 182, 212, 0.4)", "rgba(6, 182, 212, 0)") }
  else none

/-- A canvas gradient made by `createLinearGradient(0, 0, 0, 400)` with its two colour stops. -/
structure Gradient where
  stop0 : String
  stop1 : String
  deriving DecidableEq, Repr

/-- A value plotted by the chart: `h[currentMetric]` is a number field or the timestamp. -/
inductive Cell
  | val (v : JSVal)
  | text (s : String)
  deriving DecidableEq, Repr

/-- The object `trendChart.data.datasets[0]`, with the properties the script assigns. -/
structure Dataset where
  label : String
  data : List Cell
  borderColor : String
  backgroundColor : Gradient
  pointBackgroundColor : String
  deriving DecidableEq, Repr

/-- An element matching `[data-metric]`. -/
structure Button where
  metric : String
  classList : List String
  deriving DecidableEq, Repr

/-- One card of the alert list. -/
structure AlertCard where
  tone : String
  severity : Option String
  metric : Option String
  value : Txt
  deriving DecidableEq, Repr

/-- Content of the element `alert-list`. -/
inductive AlertPanel
  | markup (s : String)
  | cards (cs : List AlertCard)
  | stable
  deriving DecidableEq, Repr

/-- The page and module state as `dashboard.js` sees it. -/
structure Page where
  currentMetric : String
  buttons : List Button
  labels : List String
  dataset : Dataset
  connectionStatus : List String
  healthScoreText : Txt
  healthScoreClass : String
  aqiValue : Txt
  pm25Val : Txt
  co2Val : Txt
  aqiForecast : Txt
  alertList : AlertPanel
  console : List String
  deriving DecidableEq, Repr

/-- The method `classList.add(…tokens)`. -/
def classListAdd (tokens : List String) (cl : List String) : List String :=
  tokens.foldl (fun acc t => if t ∈ acc then acc else acc ++ [t]) cl

/-- The method `classList.remove(…tokens)`. -/
def classListRemove (tokens : List String) (cl : List String) : List String :=
  cl.filter (fun t => decide (t ∉ tokens))

/-- The three classes that mark the selected metric button. -/
def activeClasses : List String :=
  ["bg-emerald-500/20", "text-emerald-400", "border-emerald-500/30"]

/-- Body of the inner `forEach` of the click handler for one button. -/
def restyleButton (metric : String) (b : Button) : Button :=
  if b.metric = metric then
    { b with classList := classListRemove ["text-slate-400"] (classListAdd activeClasses b.classList) }
  else
    { b with classList := classListAdd ["text-slate-400"] (classListRemove activeClasses b.classList) }

/-- The click handler of a `[data-metric]` button whose attribute is `metric`. A key that
`metricConfig` lacks faults at `config.gradient[0]`, after the selection and the button
styles were written; the fault is not caught by the script and ends up on the console. -/
def metricClick (metric : String) (p : Page) : Page :=
  if metric = p.currentMetric then p
  else
    let p1 := { p with currentMetric := metric, buttons := p.buttons.map (restyleButton metric) }
    match metricConfig metric with
    | none => { p1 with console := p1.console ++ ["Uncaught TypeError"] }
    | some config =>
      let newGradient : Gradient := { stop0 := config.gradient.1, stop1 := config.gradient.2 }
      { p1 with dataset :=
          { p1.dataset with
            label := config.label
            borderColor := config.color
            backgroundColor := newGradient
            pointBackgroundColor := config.color } }

/-- The property read `h[currentMetric]`. -/
def HistoryPoint.get (h : HistoryPoint) (key : String) : Cell :=
  if key = "aqi" then Cell.val (JSVal.ofField h.aqi)
  else if key = "pm25" then Cell.val (JSVal.ofField h.pm25)
  else if key = "temperature" then Cell.val (JSVal.ofField h.temperature)
  else if key = "heat_pollution_index" then Cell.val (JSVal.ofField h.heat_pollution_index)
  else if key = "timestamp" then
    match h.timestamp with
    | some s => Cell.text s
    | none => Cell.val JSVal.undefined
  else Cell.val JSVal.undefined

/-- The handler `catch (err) { console.error('Update Error:', err) }`. -/
def logError (p : Page) : Page :=
  { p with console := p.console ++ ["Update Error:"] }

/-- Class of the element `health-score` for a rounded score. -/
def healthClass (healthScore : JSVal) : String :=
  if healthScore.gtLit 80 then "text-6xl font-bold text-emerald-400 stat-value"
  else if healthScore.gtLit 50 then "text-6xl font-bold text-amber-400 stat-value"
  else "text-6xl font-bold text-red-400 stat-value"

/-- The card the template renders for one alert. -/
def alertCard (a : Alert) : AlertCard :=
  { tone := if a.severity = some "Emergency" then "red" else "amber"
    severity := a.severity
    metric := a.metric
    value := Txt.fixed1 (JSVal.num a.value) }

/-- The value cards and the alert list of `updateDashboard` (from "Update Values" to
"Update Alerts"). -/
def valuesAndAlerts (data : Payload) (latest : Reading) (p : Page) : Page :=
  let healthScore := (JSVal.ofField latest.health_score).round
  { p with
    healthScoreText := Txt.val healthScore
    healthScoreClass := healthClass healthScore
    aqiValue := Txt.int (mathRound latest.aqi)
    pm25Val := Txt.fixed1 (JSVal.num latest.pm25)
    co2Val := Txt.int (mathRound latest.co2)
    aqiForecast := Txt.forecast (Txt.val (JSVal.ofField data.forecast).round)
    alertList :=
      match data.alerts with
      | some (a :: rest) => AlertPanel.cards ((a :: rest).map alertCard)
      | _ => AlertPanel.stable }

/-- The chart step of `updateDashboard` ("Update Chart") for a history that is there;
`clock` renders a timestamp as the local `H:MM:SS`. -/
def chartStep (clock : Option String → String) (history : List HistoryPoint) (p : Page) : Page :=
  { p with
    labels := history.map (fun h => clock h.timestamp)
    dataset := { p.dataset with data := history.map (fun h => HistoryPoint.get h p.currentMetric) } }

/-- The test `if (data.error)`: the field is there and is not the empty string. -/
def errorSet (data : Payload) : Bool :=
  match data.error with
  | none => false
  | some s => decide (s ≠ "")

/-- Function `updateDashboard()` of `dashboard.js` for one response; `none` is a request
whose `fetch` or `json()` rejected. -/
def updateDashboard (clock : Option String → String) (response : Option Payload) (p : Page) :
    Page :=
  match response with
  | none => logError p
  | some data =>
    if errorSet data then logError p
    else
      let p1 := { p with connectionStatus := classListRemove ["opacity-0"] p.connectionStatus }
      match data.latest with
      | none => logError p1
      | some latest =>
        let p2 := valuesAndAlerts data latest p1
        match data.history with
        | none => logError p2
        | some history => chartStep clock history p2

end Dashboard

/-! ## Vocabulary of the statements -/

namespace LiveUpdates

/-- The two red advisories of the band above 200. -/
def redBand : List Advisory :=
  [ { group := "Elderly & Children", msg := "URGENT: Stay indoors. Hazardous levels.",
      color := "red", icon := "fa-triangle-exclamation" },
    { group := "Outdoor Workers", msg := "Limit shifts to 30 mins. N95 essential.",
      color := "red", icon := "fa-hard-hat" } ]

/-- The single amber advisory of the band from 100 (excluded) to 200 (included). -/
def amberBand : List Advisory :=
  [ { group := "Sensitive Citizens", msg := "Moderately high levels. Carry inhalers.",
      color := "amber", icon := "fa-lungs" } ]

/-- The single emerald advisory of the band up to 100. -/
def emeraldBand : List Advisory :=
  [ { group := "Public Access", msg := "Air quality is healthy. Outdoor activity safe.",
      color := "emerald", icon := "fa-check-circle" } ]

/-- Badge text and advisory cards tell the same severity. -/
def corresponds (badge : String) (cards : List Advisory) : Prop :=
  (badge = "Optimal" ∧ ∀ c ∈ cards, c.color = "emerald") ∨
  (badge = "Warning" ∧ ∀ c ∈ cards, c.color = "amber") ∨
  (badge = "Critical" ∧ ∀ c ∈ cards, c.color = "red")

/-- State of the page when step 6 of `updateDashboard` is done (attribution present). -/
def afterAdvisory (latest : Reading) (attr : Attribution) (v : View) : View :=
  updateAdvisory latest.aqi (mapAndCarbon latest
    { attributionBars latest (sensorsAndBadge latest v) with summaryText := summarySentence attr })

end LiveUpdates

namespace LiveUpdates

/-- The traffic-driven summary sentence. -/
def trafficMessage : String :=
  "System Analysis: Pollution surge driven primarily by increasing traffic density in central corridors."

/-- The stagnation summary sentence. -/
def stagnationMessage : String :=
  "System Analysis: Critical atmospheric stagnation detected. Pollutants are failing to disperse due to low wind."

/-- The stable summary sentence. -/
def stableMessage : String :=
  "System Analysis: Environmental state is currently stable with normal industrial loading."

/-- A share of an attribution record is there and above the threshold `k`. -/
def exceeds (share : Option ℚ) (k : ℚ) : Prop :=
  ∃ q, share = some q ∧ q > k

/-- A page of `live_updates.js` with every optional element there and nothing rendered yet. -/
def sampleView : View :=
  { aqiVal := Txt.lit "--", pm25Val := Txt.lit "--", co2Val := Txt.lit "--",
    healthScore := Txt.lit "--", healthCircleOffset := Txt.lit "226",
    healthCircleColor := "", aqiBadgeText := "", aqiBadgeClass := "",
    attrTrafficVal := Txt.lit "", attrTrafficBar := Txt.lit "",
    attrIndustrialVal := Txt.lit "", attrIndustrialBar := Txt.lit "",
    attrWindVal := Txt.lit "", attrWindBar := Txt.lit "",
    summaryText := "Waiting for data", mapHook := false, mapCalls := [],
    carbonDay := some (Txt.lit "--"), carbonBar := Txt.lit "0%",
    advisoryContainer := some [], trendCanvas := true, trendChart := none,
    reportTable := some [],
    otherIds := ["aqiVal", "pm25Val", "co2Val", "aqiBadge", "healthCircle", "healthScore",
                 "summaryText", "carbonDay", "carbonBar", "advisoryContainer", "trendChart",
                 "report-table"],
    console := [] }

/-- A browser that finds no element with an id in the markup of a new row, as is the case
when types and levels are plain words. -/
def noMarkup (_type _level : String) : List String :=
  []

/-- A reading with the given AQI and attribution and nothing else of note. -/
def sampleReading (aqi : ℚ) (attr : Option Attribution) : Reading :=
  { aqi := aqi, pm25 := 12, co2 := 400, health_score := some 80,
    attribution := attr, carbon_footprint := none }

/-- A payload holding only `latest`. -/
def samplePayload (latest : Option Reading) : Payload :=
  { latest := latest, history := none, alerts := none, forecast := none, error := none }

end LiveUpdates

namespace LiveUpdates

/-- An alert with the given type and level. -/
def sampleAlert (type level : String) : Alert :=
  { type := type, level := level, value := 220, severity := none, metric := none }

/-- The row that `updateIncidentLog` creates for an alert at clock reading `now`. -/
def newRow (markupIds : String → String → List String) (now : String) (a : Alert) :
    IncidentRow :=
  { id := alertId a, innerIds := markupIds a.type a.level, pulse := true, time := now,
    type := a.type, level := a.level, value := a.value }

/-- Number of rows of the log whose own id is `id`. -/
def idCount (rows : List IncidentRow) (id : String) : Nat :=
  rows.countP (fun r => r.id == id)

/-- Number of rows of the log that show the identity with the given type and level. -/
def pairCount (rows : List IncidentRow) (type level : String) : Nat :=
  rows.countP (fun r => r.type == type && r.level == level)

/-- The sample page with a log that already holds two rows of the identity AQI/Critical. -/
def duplicateLogView : View :=
  { sampleView with
    reportTable := some [ newRow noMarkup "11:58:00" (sampleAlert "AQI" "Critical"),
                          newRow noMarkup "11:59:00" (sampleAlert "AQI" "Critical") ] }

/-- A history point holding only the three fields of the heat-pollution chain. -/
def samplePoint (index temperature aqi : Option ℚ) : HistoryPoint :=
  { timestamp := none, aqi := aqi, pm25 := none, temperature := temperature,
    heat_pollution_index := index }

end LiveUpdates

namespace Dashboard

/-- The page of `dashboard.js` right after the script has loaded: metric `aqi` selected, an
empty chart styled from `metricConfig.aqi`, the connection badge still hidden. -/
def samplePage : Page :=
  { currentMetric := "aqi",
    buttons := [ { metric := "aqi", classList := activeClasses },
                 { metric := "pm25", classList := ["text-slate-400"] } ],
    labels := [],
    dataset := { label := "AQI Index", data := [], borderColor := "#10b981",
                 backgroundColor := { stop0 := "rgba(16, 185, 129, 0.4)",
                                      stop1 := "rgba(16, 185, 129, 0)" },
                 pointBackgroundColor := "#10b981" },
    connectionStatus := ["opacity-0"],
    healthScoreText := Txt.lit "--", healthScoreClass := "",
    aqiValue := Txt.lit "--", pm25Val := Txt.lit "--", co2Val := Txt.lit "--",
    aqiForecast := Txt.lit "--", alertList := AlertPanel.markup "", console := [] }

/-- A clock rendering that shows the raw timestamp. -/
def sampleClock (timestamp : Option String) : String :=
  timestamp.getD "Invalid Date"

/-- A payload without `latest` and without `error`. -/
def emptyPayload : Payload :=
  { latest := none, history := none, alerts := none, forecast := none, error := none }

end Dashboard

namespace Dashboard

/-- A history point with a well-formed timestamp and the given AQI. -/
def timedPoint (aqi : ℚ) : HistoryPoint :=
  { timestamp := some "2024-05-01T12:34:56", aqi := some aqi, pm25 := some 10,
    temperature := none, heat_pollution_index := none }

/-- A payload with a reading and a history of thirty points. -/
def payload30 : Payload :=
  { latest := some { aqi := 50, pm25 := 12, co2 := 400, health_score := some 80,
                     attribution := none, carbon_footprint := none },
    history := some (List.replicate 30 (timedPoint 50)),
    alerts := none, forecast := none, error := none }

/-- Thirty timed points with the AQI values 1 to 30, oldest first. -/
def history30 : List HistoryPoint :=
  (List.range 30).map (fun i => timedPoint ((i : ℚ) + 1))

/-- A payload with a reading and the given history. -/
def payloadWith (history : List HistoryPoint) : Payload :=
  { latest := some { aqi := 50, pm25 := 12, co2 := 400, health_score := some 80,
                     attribution := none, carbon_footprint := none },
    history := some history, alerts := none, forecast := none, error := none }

end Dashboard

/-! ## Lemmas on `live_updates.js` -/

namespace LiveUpdates

theorem advisories_red {a : ℚ} (h : a > 200) : advisories a = redBand := by
  simp [advisories, redBand, h]

theorem advisories_amber {a : ℚ} (h1 : 100 < a) (h2 : a ≤ 200) : advisories a = amberBand := by
  have h3 : ¬ (200 < a) := not_lt.mpr h2
  simp [advisories, amberBand, h3, h1]

theorem advisories_emerald {a : ℚ} (h : a ≤ 100) : advisories a = emeraldBand := by
  have h1 : ¬ (100 < a) := not_lt.mpr h
  have h2 : ¬ (200 < a) := fun h3 => h1 (lt_trans (by norm_num) h3)
  simp [advisories, emeraldBand, h1, h2]

theorem updateIncidentLog_badge (m : String → String → List String) (now : String)
    (al : Option (List Alert)) (v : View) :
    (updateIncidentLog m now al v).aqiBadgeText = v.aqiBadgeText := by
  unfold updateIncidentLog
  split <;> rfl

theorem updateIncidentLog_advisory (m : String → String → List String) (now : String)
    (al : Option (List Alert)) (v : View) :
    (updateIncidentLog m now al v).advisoryContainer = v.advisoryContainer := by
  unfold updateIncidentLog
  split <;> rfl

theorem updateIncidentLog_summary (m : String → String → List String) (now : String)
    (al : Option (List Alert)) (v : View) :
    (updateIncidentLog m now al v).summaryText = v.summaryText := by
  unfold updateIncidentLog
  split <;> rfl

theorem updateIncidentLog_chart (m : String → String → List String) (now : String)
    (al : Option (List Alert)) (v : View) :
    (updateIncidentLog m now al v).trendChart = v.trendChart := by
  unfold updateIncidentLog
  split <;> rfl

theorem updateTrendChart_keeps (history : List HistoryPoint) (v v1 : View)
    (h : updateTrendChart history v = Except.ok v1) :
    v1.aqiBadgeText = v.aqiBadgeText ∧ v1.advisoryContainer = v.advisoryContainer ∧
      v1.summaryText = v.summaryText := by
  unfold updateTrendChart at h
  split at h
  · cases h; exact ⟨rfl, rfl, rfl⟩
  · split at h
    · cases h
    · split at h <;> (cases h; exact ⟨rfl, rfl, rfl⟩)

theorem mapAndCarbon_keeps (latest : Reading) (v : View) :
    (mapAndCarbon latest v).aqiBadgeText = v.aqiBadgeText ∧
      (mapAndCarbon latest v).advisoryContainer = v.advisoryContainer ∧
      (mapAndCarbon latest v).summaryText = v.summaryText := by
  unfold mapAndCarbon
  by_cases hm : v.mapHook = true <;> simp only [hm, if_true, if_false] <;>
    split <;> exact ⟨rfl, rfl, rfl⟩

theorem updateAdvisory_keeps (aqi : ℚ) (v : View) :
    (updateAdvisory aqi v).aqiBadgeText = v.aqiBadgeText ∧
      (updateAdvisory aqi v).summaryText = v.summaryText := by
  unfold updateAdvisory
  split <;> exact ⟨rfl, rfl⟩

theorem attributionBars_keeps (latest : Reading) (v : View) :
    (attributionBars latest v).aqiBadgeText = v.aqiBadgeText ∧
      (attributionBars latest v).advisoryContainer = v.advisoryContainer := by
  unfold attributionBars
  split <;> exact ⟨rfl, rfl⟩

theorem updateAdvisory_container (aqi : ℚ) (v : View) :
    (updateAdvisory aqi v).advisoryContainer =
      match v.advisoryContainer with
      | none => none
      | some _ => some (advisories aqi) := by
  unfold updateAdvisory
  cases h : v.advisoryContainer with
  | none => simp only [h]
  | some c => rfl

theorem updateDashboard_cases (m : String → String → List String) (now : String) (p : Payload) (v : View) (r : Reading)
    (attr : Attribution) (hl : p.latest = some r) (ha : r.attribution = some attr) :
    updateDashboard m now (some p) v = logFailure (afterAdvisory r attr v) ∨
    updateDashboard m now (some p) v = updateIncidentLog m now p.alerts (afterAdvisory r attr v) ∨
    ∃ v7, updateTrendChart (p.history.getD []) (afterAdvisory r attr v) = Except.ok v7 ∧
      updateDashboard m now (some p) v = updateIncidentLog m now p.alerts v7 := by
  unfold updateDashboard
  simp only [hl, ha]
  by_cases hh : (p.history.getD []).length > 0
  · simp only [hh, if_true]
    cases hc : updateTrendChart (p.history.getD []) (afterAdvisory r attr v) with
    | error e =>
      left
      simp only [afterAdvisory] at hc
      simp only [hc, afterAdvisory]
    | ok v7 =>
      right; right
      refine ⟨v7, rfl, ?_⟩
      simp only [afterAdvisory] at hc
      simp only [hc]
  · right; left
    simp only [hh, if_false, afterAdvisory]

theorem afterAdvisory_fields (r : Reading) (attr : Attribution) (v : View) :
    (afterAdvisory r attr v).aqiBadgeText = badgeText r.aqi ∧
    (afterAdvisory r attr v).summaryText = summarySentence attr ∧
    ((afterAdvisory r attr v).advisoryContainer =
      match v.advisoryContainer with
      | none => none
      | some _ => some (advisories r.aqi)) := by
  unfold afterAdvisory
  refine ⟨?_, ?_, ?_⟩
  · rw [(updateAdvisory_keeps _ _).1, (mapAndCarbon_keeps _ _).1]
    exact (attributionBars_keeps _ _).1
  · rw [(updateAdvisory_keeps _ _).2, (mapAndCarbon_keeps _ _).2.2]
  · rw [updateAdvisory_container, (mapAndCarbon_keeps _ _).2.1]
    show (match (attributionBars r (sensorsAndBadge r v)).advisoryContainer with
      | none => none
      | some _ => some (advisories r.aqi)) = _
    rw [(attributionBars_keeps _ _).2]
    rfl

theorem updateDashboard_fields (m : String → String → List String) (now : String) (p : Payload) (v : View) (r : Reading)
    (attr : Attribution) (hl : p.latest = some r) (ha : r.attribution = some attr) :
    (updateDashboard m now (some p) v).aqiBadgeText = badgeText r.aqi ∧
    (updateDashboard m now (some p) v).summaryText = summarySentence attr ∧
    ((updateDashboard m now (some p) v).advisoryContainer =
      match v.advisoryContainer with
      | none => none
      | some _ => some (advisories r.aqi)) := by
  have hf := afterAdvisory_fields r attr v
  rcases updateDashboard_cases m now p v r attr hl ha with h | h | ⟨v7, h7, h⟩
  · rw [h]; exact hf
  · rw [h, updateIncidentLog_badge, updateIncidentLog_summary, updateIncidentLog_advisory]
    exact hf
  · rw [h, updateIncidentLog_badge, updateIncidentLog_summary, updateIncidentLog_advisory]
    obtain ⟨k1, k2, k3⟩ := updateTrendChart_keeps _ _ _ h7
    rw [k1, k2, k3]
    exact hf

end LiveUpdates

namespace LiveUpdates

theorem mapThrowing_eq_some {α β : Type} (f : α → Option β) (xs : List α) (ys : List β)
    (h : mapThrowing f xs = some ys) : ys.map some = xs.map f := by
  induction xs generalizing ys with
  | nil =>
    simp only [mapThrowing, Option.some.injEq] at h
    subst h
    rfl
  | cons x xs ih =>
    unfold mapThrowing at h
    cases hx : f x with
    | none => rw [hx] at h; cases h
    | some y =>
      rw [hx] at h
      cases hxs : mapThrowing f xs with
      | none => rw [hxs] at h; cases h
      | some ys1 =>
        rw [hxs] at h
        simp only [Option.some.injEq] at h
        subst h
        simp [ih ys1 hxs, hx]

theorem mapThrowing_total {α β : Type} (f : α → Option β) (xs : List α)
    (h : ∀ x ∈ xs, (f x).isSome = true) : ∃ ys, mapThrowing f xs = some ys := by
  induction xs with
  | nil => exact ⟨[], rfl⟩
  | cons x xs ih =>
    obtain ⟨ys, hys⟩ := ih (fun z hz => h z (List.mem_cons_of_mem _ hz))
    have hx := h x (List.mem_cons_self _ _)
    cases hfx : f x with
    | none => rw [hfx] at hx; cases hx
    | some y =>
      refine ⟨y :: ys, ?_⟩
      simp [mapThrowing, hfx, hys]

theorem sliceLast_length {α : Type} (k : Nat) (xs : List α) :
    (sliceLast k xs).length = min k xs.length := by
  unfold sliceLast
  rw [List.length_drop]
  omega

theorem sliceLast_suffix {α : Type} (k : Nat) (xs : List α) :
    xs = xs.take (xs.length - k) ++ sliceLast k xs := by
  unfold sliceLast
  exact (List.take_append_drop _ _).symm

/-! ### The incident log -/

theorem getElementById_cons (o : List String) (r : IncidentRow) (rows : List IncidentRow)
    (id : String) :
    getElementById o (r :: rows) id =
      ((r.id == id || r.innerIds.contains id) || getElementById o rows id) := by
  unfold getElementById
  rw [List.any_cons]
  cases o.contains id <;> cases (r.id == id || r.innerIds.contains id) <;> simp

theorem getElementById_of_row (o : List String) (rows : List IncidentRow) (r : IncidentRow)
    (id : String) (hr : r ∈ rows) (hid : r.id = id) : getElementById o rows id = true := by
  unfold getElementById
  rw [Bool.or_eq_true, List.any_eq_true]
  exact Or.inr ⟨r, hr, by simp [hid]⟩

theorem insertAlert_found (m : String → String → List String) (now : String) (o : List String)
    (rows : List IncidentRow) (a : Alert) (h : getElementById o rows (alertId a) = true) :
    insertAlert m now o rows a = rows := by
  simp [insertAlert, h]

theorem insertAlert_fresh (m : String → String → List String) (now : String) (o : List String)
    (rows : List IncidentRow) (a : Alert) (h : getElementById o rows (alertId a) = false) :
    insertAlert m now o rows a = newRow m now a :: rows := by
  simp [insertAlert, h, newRow]

theorem getElementById_insertAlert_self (m : String → String → List String) (now : String)
    (o : List String) (rows : List IncidentRow) (a : Alert) :
    getElementById o (insertAlert m now o rows a) (alertId a) = true := by
  cases h : getElementById o rows (alertId a) with
  | true => rw [insertAlert_found m now o rows a h]; exact h
  | false =>
    rw [insertAlert_fresh m now o rows a h, getElementById_cons]
    simp [newRow]

theorem getElementById_insertAlert_of (m : String → String → List String) (now : String)
    (o : List String) (rows : List IncidentRow) (a : Alert) (id : String)
    (h : getElementById o rows id = true) :
    getElementById o (insertAlert m now o rows a) id = true := by
  cases k : getElementById o rows (alertId a) with
  | true => rw [insertAlert_found m now o rows a k]; exact h
  | false =>
    rw [insertAlert_fresh m now o rows a k, getElementById_cons, h]
    simp

theorem getElementById_foldl_of (m : String → String → List String) (now : String)
    (o : List String) (alerts : List Alert) (rows : List IncidentRow) (id : String)
    (h : getElementById o rows id = true) :
    getElementById o (alerts.foldl (insertAlert m now o) rows) id = true := by
  induction alerts generalizing rows with
  | nil => exact h
  | cons a rest ih => exact ih _ (getElementById_insertAlert_of m now o rows a id h)

theorem getElementById_foldl_mem (m : String → String → List String) (now : String)
    (o : List String) (alerts : List Alert) (rows : List IncidentRow) (a : Alert)
    (h : a ∈ alerts) :
    getElementById o (alerts.foldl (insertAlert m now o) rows) (alertId a) = true := by
  induction alerts generalizing rows with
  | nil => cases h
  | cons b rest ih =>
    rcases List.mem_cons.mp h with hb | hb
    · subst hb
      exact getElementById_foldl_of m now o rest _ _
        (getElementById_insertAlert_self m now o rows a)
    · exact ih _ hb

theorem foldl_insertAlert_noop (m : String → String → List String) (now : String)
    (o : List String) (alerts : List Alert) (rows : List IncidentRow)
    (h : ∀ a ∈ alerts, getElementById o rows (alertId a) = true) :
    alerts.foldl (insertAlert m now o) rows = rows := by
  induction alerts with
  | nil => rfl
  | cons a rest ih =>
    rw [List.foldl_cons, insertAlert_found m now o rows a (h a (List.mem_cons_self _ _))]
    exact ih (fun b hb => h b (List.mem_cons_of_mem _ hb))

theorem updateIncidentLog_otherIds (m : String → String → List String) (now : String)
    (al : Option (List Alert)) (v : View) :
    (updateIncidentLog m now al v).otherIds = v.otherIds := by
  unfold updateIncidentLog
  split <;> rfl

theorem updateIncidentLog_twice (m : String → String → List String) (now1 now2 : String)
    (alerts : List Alert) (v : View) :
    updateIncidentLog m now2 (some alerts) (updateIncidentLog m now1 (some alerts) v) =
      updateIncidentLog m now1 (some alerts) v := by
  cases ht : v.reportTable with
  | none =>
    have h1 : updateIncidentLog m now1 (some alerts) v = v := by
      unfold updateIncidentLog; simp only [ht]
    rw [h1]
    unfold updateIncidentLog; simp only [ht]
  | some rows =>
    cases alerts with
    | nil =>
      have h1 : updateIncidentLog m now1 (some []) v = v := by
        unfold updateIncidentLog; simp only [ht]
      rw [h1]
      unfold updateIncidentLog; simp only [ht]
    | cons a rest =>
      have h1 : updateIncidentLog m now1 (some (a :: rest)) v =
          { v with
            reportTable := some ((a :: rest).foldl (insertAlert m now1 v.otherIds) rows) } := by
        unfold updateIncidentLog; simp only [ht]
      rw [h1]
      unfold updateIncidentLog
      simp only
      rw [foldl_insertAlert_noop m now2 v.otherIds (a :: rest) _
        (fun b hb => getElementById_foldl_mem m now1 v.otherIds (a :: rest) rows b hb)]

end LiveUpdates

namespace LiveUpdates

theorem alertId_congr (a b : Alert) (h : b.type = a.type ∧ b.level = a.level) :
    alertId b = alertId a := by
  unfold alertId
  rw [h.1, h.2]

theorem split_at_first_occurrence (c : Char) (t1 t2 l1 l2 : List Char) (h1 : c ∉ t1)
    (h2 : c ∉ t2) (h : t1 ++ c :: l1 = t2 ++ c :: l2) : t1 = t2 ∧ l1 = l2 := by
  induction t1 generalizing t2 with
  | nil =>
    cases t2 with
    | nil => simpa using h
    | cons y ys =>
      simp only [List.nil_append, List.cons_append, List.cons.injEq] at h
      exact absurd (h.1 ▸ List.mem_cons_self _ _) h2
  | cons x xs ih =>
    cases t2 with
    | nil =>
      simp only [List.nil_append, List.cons_append, List.cons.injEq] at h
      exact absurd (h.1 ▸ List.mem_cons_self _ _) h1
    | cons y ys =>
      simp only [List.cons_append, List.cons.injEq] at h
      obtain ⟨k1, k2⟩ := ih ys (fun hm => h1 (List.mem_cons_of_mem _ hm))
        (fun hm => h2 (List.mem_cons_of_mem _ hm)) h.2
      exact ⟨by rw [h.1, k1], k2⟩

theorem alertId_injective_of_no_hyphen (a b : Alert) (ha : '-' ∉ a.type.data)
    (hb : '-' ∉ b.type.data) (h : alertId a = alertId b) :
    a.type = b.type ∧ a.level = b.level := by
  have hd := congrArg String.data h
  simp only [alertId, String.data_append] at hd
  rw [List.append_assoc, List.append_assoc, List.append_assoc, List.append_assoc] at hd
  have hd2 := List.append_cancel_left hd
  have hs := split_at_first_occurrence '-' a.type.data b.type.data a.level.data b.level.data
    ha hb hd2
  exact ⟨String.ext hs.1, String.ext hs.2⟩

theorem idCount_eq_zero (o : List String) (rows : List IncidentRow) (id : String)
    (h : getElementById o rows id = false) : idCount rows id = 0 := by
  induction rows with
  | nil => rfl
  | cons r rows ih =>
    rw [getElementById_cons] at h
    simp only [Bool.or_eq_false_iff] at h
    unfold idCount
    rw [List.countP_cons, h.1.1]
    exact ih h.2

theorem counts_cons_other (r : IncidentRow) (rows : List IncidentRow) (a : Alert)
    (hid : r.id ≠ alertId a) (hp : ¬ (r.type = a.type ∧ r.level = a.level)) :
    pairCount (r :: rows) a.type a.level = pairCount rows a.type a.level ∧
    idCount (r :: rows) (alertId a) = idCount rows (alertId a) := by
  unfold pairCount idCount
  rw [List.countP_cons, List.countP_cons]
  have h1 : (r.id == alertId a) = false := by simpa using hid
  have h2 : (r.type == a.type && r.level == a.level) = false := by
    cases h : (r.type == a.type && r.level == a.level) with
    | false => rfl
    | true =>
      simp only [Bool.and_eq_true, beq_iff_eq] at h
      exact absurd h hp
  rw [h1, h2]
  exact ⟨rfl, rfl⟩

theorem counts_cons_same (r : IncidentRow) (rows : List IncidentRow) (a : Alert)
    (hid : r.id = alertId a) (hp : r.type = a.type ∧ r.level = a.level) :
    pairCount (r :: rows) a.type a.level = pairCount rows a.type a.level + 1 ∧
    idCount (r :: rows) (alertId a) = idCount rows (alertId a) + 1 := by
  unfold pairCount idCount
  rw [List.countP_cons, List.countP_cons]
  simp [hid, hp.1, hp.2]

theorem counts_stay (m : String → String → List String) (now : String) (o : List String)
    (alerts : List Alert) (rows : List IncidentRow) (a : Alert)
    (hf : getElementById o rows (alertId a) = true) :
    pairCount (alerts.foldl (insertAlert m now o) rows) a.type a.level
      = pairCount rows a.type a.level ∧
    idCount (alerts.foldl (insertAlert m now o) rows) (alertId a) = idCount rows (alertId a) := by
  induction alerts generalizing rows with
  | nil => exact ⟨rfl, rfl⟩
  | cons b rest ih =>
    rw [List.foldl_cons]
    cases k : getElementById o rows (alertId b) with
    | true =>
      rw [insertAlert_found m now o rows b k]
      exact ih rows hf
    | false =>
      have hne : alertId b ≠ alertId a := by
        intro he
        rw [he, hf] at k
        cases k
      have step := counts_cons_other (newRow m now b) rows a hne
        (fun hp => hne (alertId_congr a b hp))
      have hf2 := getElementById_insertAlert_of m now o rows b _ hf
      rw [insertAlert_fresh m now o rows b k] at hf2 ⊢
      obtain ⟨i1, i2⟩ := ih _ hf2
      exact ⟨i1.trans step.1, i2.trans step.2⟩

theorem counts_fresh (m : String → String → List String) (now : String) (o : List String)
    (alerts : List Alert) (rows : List IncidentRow) (a : Alert) (ha : a ∈ alerts)
    (hnf : getElementById o rows (alertId a) = false)
    (hp : pairCount rows a.type a.level = 0)
    (h3 : ∀ b ∈ alerts, alertId b = alertId a → b.type = a.type ∧ b.level = a.level)
    (h4 : ∀ b ∈ alerts, alertId a ∉ m b.type b.level) :
    pairCount (alerts.foldl (insertAlert m now o) rows) a.type a.level = 1 ∧
    idCount (alerts.foldl (insertAlert m now o) rows) (alertId a) = 1 := by
  induction alerts generalizing rows with
  | nil => cases ha
  | cons b rest ih =>
    rw [List.foldl_cons]
    by_cases hid : alertId b = alertId a
    · have k : getElementById o rows (alertId b) = false := by rw [hid]; exact hnf
      have hf2 := getElementById_insertAlert_self m now o rows b
      rw [insertAlert_fresh m now o rows b k] at hf2 ⊢
      rw [hid] at hf2
      obtain ⟨i1, i2⟩ := counts_stay m now o rest _ a hf2
      have step := counts_cons_same (newRow m now b) rows a hid
        (h3 b (List.mem_cons_self _ _) hid)
      rw [i1, i2, step.1, step.2, hp, idCount_eq_zero o rows _ hnf]
      exact ⟨rfl, rfl⟩
    · have ha2 : a ∈ rest := by
        rcases List.mem_cons.mp ha with h | h
        · exact absurd (by rw [h]) hid
        · exact h
      have h3r : ∀ c ∈ rest, alertId c = alertId a → c.type = a.type ∧ c.level = a.level :=
        fun c hc => h3 c (List.mem_cons_of_mem _ hc)
      have h4r : ∀ c ∈ rest, alertId a ∉ m c.type c.level :=
        fun c hc => h4 c (List.mem_cons_of_mem _ hc)
      cases k : getElementById o rows (alertId b) with
      | true =>
        rw [insertAlert_found m now o rows b k]
        exact ih rows ha2 hnf hp h3r h4r
      | false =>
        rw [insertAlert_fresh m now o rows b k]
        have step := counts_cons_other (newRow m now b) rows a hid
          (fun hq => hid (alertId_congr a b hq))
        have hnf2 : getElementById o (newRow m now b :: rows) (alertId a) = false := by
          rw [getElementById_cons, hnf]
          have e1 : ((newRow m now b).id == alertId a) = false := by
            simpa [newRow] using hid
          have e2 : (newRow m now b).innerIds.contains (alertId a) = false := by
            have := h4 b (List.mem_cons_self _ _)
            simpa [newRow] using this
          rw [e1, e2]
          rfl
        exact ih _ ha2 hnf2 (step.1.trans hp) h3r h4r

end LiveUpdates

/-! ## Claims on `live_updates.js` -/

namespace LiveUpdates

/-- Claim C1. For every AQI value `a` the advisory list built by `updateAdvisory` is the
list of exactly one band: the two red advisories when `a > 200`, the amber one when
`100 < a ≤ 200`, the emerald one when `a ≤ 100`; the bands exclude each other and cover
every `a`; the list has length 2 at 250 and length 1 at 150 and at 50; and that list is
what `updateAdvisory` puts in the advisory container. -/
theorem C1_advisory_bands (a : ℚ) :
    (a > 200 → advisories a = redBand) ∧
    (100 < a ∧ a ≤ 200 → advisories a = amberBand) ∧
    (a ≤ 100 → advisories a = emeraldBand) ∧
    (a > 200 ∨ (100 < a ∧ a ≤ 200) ∨ a ≤ 100) ∧
    ¬ (a > 200 ∧ (100 < a ∧ a ≤ 200)) ∧
    ¬ (a > 200 ∧ a ≤ 100) ∧
    ¬ ((100 < a ∧ a ≤ 200) ∧ a ≤ 100) ∧
    redBand.map (fun c => (c.group, c.color)) =
      [("Elderly & Children", "red"), ("Outdoor Workers", "red")] ∧
    amberBand.map (fun c => (c.group, c.color)) = [("Sensitive Citizens", "amber")] ∧
    emeraldBand.map (fun c => (c.group, c.color)) = [("Public Access", "emerald")] ∧
    (advisories 250).length = 2 ∧ (advisories 150).length = 1 ∧ (advisories 50).length = 1 ∧
    (∀ (v : View) (old : List Advisory), v.advisoryContainer = some old →
      (updateAdvisory a v).advisoryContainer = some (advisories a)) := by
  refine ⟨advisories_red, fun h => advisories_amber h.1 h.2, advisories_emerald, ?_, ?_, ?_, ?_,
    rfl, rfl, rfl, ?_, ?_, ?_, ?_⟩
  · rcases lt_or_le 200 a with h | h
    · exact Or.inl h
    · rcases lt_or_le 100 a with h1 | h1
      · exact Or.inr (Or.inl ⟨h1, h⟩)
      · exact Or.inr (Or.inr h1)
  · rintro ⟨h1, -, h2⟩
    exact absurd h1 (not_lt.mpr h2)
  · rintro ⟨h1, h2⟩
    linarith
  · rintro ⟨⟨h1, -⟩, h2⟩
    exact absurd h1 (not_lt.mpr h2)
  · rw [advisories_red (by norm_num)]; rfl
  · rw [advisories_amber (by norm_num) (by norm_num)]; rfl
  · rw [advisories_emerald (by norm_num)]; rfl
  · intro v old hv
    rw [updateAdvisory_container, hv]

/-- Instance of C1 at the value 250, in the red band. -/
theorem C1_advisory_bands_witness : advisories 250 = redBand :=
  (C1_advisory_bands 250).1 (by decide)

/-- Claim C10. Within one tick the badge text and the advisory cards come from the same
`aqi`: the badge is Optimal below 100, Warning from 100 to below 200, Critical otherwise;
badge and advisory colour correspond exactly when `aqi` is neither 100 nor 200; at 100 the
badge is Warning with the emerald advisory, at 200 it is Critical with the amber one. -/
theorem C10_badge_advisory_boundaries (a : ℚ) :
    (a < 100 → badgeText a = "Optimal") ∧
    (100 ≤ a ∧ a < 200 → badgeText a = "Warning") ∧
    (200 ≤ a → badgeText a = "Critical") ∧
    (corresponds (badgeText a) (advisories a) ↔ (a ≠ 100 ∧ a ≠ 200)) ∧
    (badgeText 100 = "Warning" ∧ advisories 100 = emeraldBand) ∧
    (badgeText 200 = "Critical" ∧ advisories 200 = amberBand) ∧
    (∀ (markupIds : String → String → List String) (now : String) (p : Payload) (v : View)
        (r : Reading) (attr : Attribution) (old : List Advisory),
      p.latest = some r → r.aqi = a → r.attribution = some attr →
      v.advisoryContainer = some old →
      (updateDashboard markupIds now (some p) v).aqiBadgeText = badgeText a ∧
      (updateDashboard markupIds now (some p) v).advisoryContainer
        = some (advisories a)) := by
  have hO : ∀ x : ℚ, x < 100 → badgeText x = "Optimal" := by
    intro x h; simp [badgeText, h]
  have hW : ∀ x : ℚ, 100 ≤ x → x < 200 → badgeText x = "Warning" := by
    intro x h1 h2; simp [badgeText, not_lt.mpr h1, h2]
  have hC : ∀ x : ℚ, 200 ≤ x → badgeText x = "Critical" := by
    intro x h
    have h1 : ¬ x < 100 := by intro h2; linarith
    simp [badgeText, not_lt.mpr h, h1]
  refine ⟨hO a, fun h => hW a h.1 h.2, hC a, ?_, ⟨hW 100 (by norm_num) (by norm_num),
    advisories_emerald (by norm_num)⟩, ⟨hC 200 (by norm_num),
    advisories_amber (by norm_num) (by norm_num)⟩, ?_⟩
  · rcases lt_trichotomy a 100 with h | h | h
    · rw [hO a h, advisories_emerald (le_of_lt h)]
      have h1 : a ≠ 100 := ne_of_lt h
      have h2 : a ≠ 200 := by intro h3; rw [h3] at h; norm_num at h
      simp [corresponds, emeraldBand, h1, h2]
    · subst h
      rw [hW 100 (by norm_num) (by norm_num), advisories_emerald (by norm_num)]
      simp [corresponds, emeraldBand]
    · rcases lt_trichotomy a 200 with k | k | k
      · rw [hW a (le_of_lt h) k, advisories_amber h (le_of_lt k)]
        have h1 : a ≠ 100 := ne_of_gt h
        have h2 : a ≠ 200 := ne_of_lt k
        simp [corresponds, amberBand, h1, h2]
      · subst k
        rw [hC 200 (by norm_num), advisories_amber (by norm_num) (by norm_num)]
        simp [corresponds, amberBand]
      · rw [hC a (le_of_lt k), advisories_red k]
        have h1 : a ≠ 100 := ne_of_gt h
        have h2 : a ≠ 200 := ne_of_gt k
        simp [corresponds, redBand, h1, h2]
  · intro m now p v r attr old hl hr ha hv
    obtain ⟨k1, -, k3⟩ := updateDashboard_fields m now p v r attr hl ha
    rw [hv] at k3
    rw [k1, k3, hr]
    exact ⟨rfl, rfl⟩

end LiveUpdates

namespace LiveUpdates

/-- Instance of C10 at the boundary 100: a tick with `aqi = 100` on a page that has the
advisory container. -/
theorem C10_badge_advisory_boundaries_witness :
    (updateDashboard noMarkup "12:00:00" (some (samplePayload (some (sampleReading 100
        (some ⟨some 10, some 10, some 10, some 0⟩))))) sampleView).aqiBadgeText
      = badgeText 100 ∧
    (updateDashboard noMarkup "12:00:00" (some (samplePayload (some (sampleReading 100
        (some ⟨some 10, some 10, some 10, some 0⟩))))) sampleView).advisoryContainer
      = some (advisories 100) :=
  (C10_badge_advisory_boundaries 100).2.2.2.2.2.2 noMarkup "12:00:00"
    (samplePayload (some (sampleReading 100 (some ⟨some 10, some 10, some 10, some 0⟩))))
    sampleView (sampleReading 100 (some ⟨some 10, some 10, some 10, some 0⟩))
    ⟨some 10, some 10, some 10, some 0⟩ [] rfl rfl rfl rfl

/-- Claim C6. For every attribution record that is present, the summary sentence written by
`updateDashboard` is the traffic message when `traffic > 40`, whatever the other fields;
otherwise the stagnation message when `wind_impact > 30`; otherwise the stable message. -/
theorem C6_summary_precedence (attr : Attribution) :
    (exceeds attr.traffic 40 → summarySentence attr = trafficMessage) ∧
    (¬ exceeds attr.traffic 40 → exceeds attr.wind_impact 30 →
      summarySentence attr = stagnationMessage) ∧
    (¬ exceeds attr.traffic 40 → ¬ exceeds attr.wind_impact 30 →
      summarySentence attr = stableMessage) ∧
    (∀ i w t : Option ℚ, summarySentence ⟨some 45, i, w, t⟩ = trafficMessage) ∧
    summarySentence ⟨some 10, none, some 35, some 0⟩ = stagnationMessage ∧
    summarySentence ⟨some 5, none, some 5, none⟩ = stableMessage ∧
    (trafficMessage ≠ stagnationMessage ∧ trafficMessage ≠ stableMessage ∧
      stagnationMessage ≠ stableMessage) ∧
    (∀ (markupIds : String → String → List String) (now : String) (p : Payload) (v : View)
        (r : Reading),
      p.latest = some r → r.attribution = some attr →
      (updateDashboard markupIds now (some p) v).summaryText = summarySentence attr) := by
  have key : ∀ (x : Option ℚ) (k : ℚ), (JSVal.ofField x).gtLit k = true ↔ exceeds x k := by
    intro x k
    cases x with
    | none => simp [JSVal.ofField, JSVal.gtLit, exceeds]
    | some q => simp [JSVal.ofField, JSVal.gtLit, exceeds]
  have hT : ∀ b : Attribution, exceeds b.traffic 40 → summarySentence b = trafficMessage := by
    intro b h
    simp [summarySentence, (key _ _).mpr h, trafficMessage]
  have hS : ∀ b : Attribution, ¬ exceeds b.traffic 40 → exceeds b.wind_impact 30 →
      summarySentence b = stagnationMessage := by
    intro b h1 h2
    have h3 : ¬ ((JSVal.ofField b.traffic).gtLit 40 = true) := fun h => h1 ((key _ _).mp h)
    simp [summarySentence, h3, (key _ _).mpr h2, stagnationMessage]
  have hN : ∀ b : Attribution, ¬ exceeds b.traffic 40 → ¬ exceeds b.wind_impact 30 →
      summarySentence b = stableMessage := by
    intro b h1 h2
    have h3 : ¬ ((JSVal.ofField b.traffic).gtLit 40 = true) := fun h => h1 ((key _ _).mp h)
    have h4 : ¬ ((JSVal.ofField b.wind_impact).gtLit 30 = true) := fun h => h2 ((key _ _).mp h)
    simp [summarySentence, h3, h4, stableMessage]
  refine ⟨hT attr, hS attr, hN attr, ?_, ?_, ?_, ?_, ?_⟩
  · intro i w t
    exact hT _ ⟨45, rfl, by norm_num⟩
  · apply hS
    · rintro ⟨q, hq, hlt⟩
      cases hq
      norm_num at hlt
    · exact ⟨35, rfl, by norm_num⟩
  · apply hN
    · rintro ⟨q, hq, hlt⟩
      cases hq
      norm_num at hlt
    · rintro ⟨q, hq, hlt⟩
      cases hq
      norm_num at hlt
  · refine ⟨by decide, by decide, by decide⟩
  · intro m now p v r hl ha
    exact (updateDashboard_fields m now p v r attr hl ha).2.1

/-- Instance of C6: a record with `traffic = 45` and a high wind share still gives the
traffic sentence. -/
theorem C6_summary_precedence_witness :
    summarySentence ⟨some 45, none, some 90, none⟩ = trafficMessage :=
  (C6_summary_precedence ⟨some 45, none, some 90, none⟩).1 ⟨45, rfl, by decide⟩

/-- Claim C9. For every payload whose `latest` is present but has no `attribution`,
`updateDashboard` faults at the summary classifier: the sensor cards, the health score and
the AQI badge are already set from the payload; the attribution bars, the summary text, the
map hook, the carbon card, the advisory panel, the trend chart and the incident log keep
their previous state; the fault is caught and only adds a console line. -/
theorem C9_missing_attribution_tick (markupIds : String → String → List String)
    (now : String) (p : Payload) (v : View) (r : Reading)
    (hl : p.latest = some r) (ha : r.attribution = none) :
    (updateDashboard markupIds now (some p) v).aqiVal = Txt.int (mathRound r.aqi) ∧
    (updateDashboard markupIds now (some p) v).pm25Val = Txt.fixed1 (JSVal.num r.pm25) ∧
    (updateDashboard markupIds now (some p) v).co2Val = Txt.int (mathRound r.co2) ∧
    (updateDashboard markupIds now (some p) v).healthScore =
      Txt.val (JSVal.num (mathRound (r.health_score.getD 0))) ∧
    (updateDashboard markupIds now (some p) v).healthCircleOffset =
      Txt.val (JSVal.num (226 - (226 * (mathRound (r.health_score.getD 0) : ℚ)) / 100)) ∧
    (updateDashboard markupIds now (some p) v).healthCircleColor = circleColor r.aqi ∧
    (updateDashboard markupIds now (some p) v).aqiBadgeText = badgeText r.aqi ∧
    (updateDashboard markupIds now (some p) v).aqiBadgeClass = badgeClass r.aqi ∧
    (updateDashboard markupIds now (some p) v).attrTrafficVal = v.attrTrafficVal ∧
    (updateDashboard markupIds now (some p) v).attrTrafficBar = v.attrTrafficBar ∧
    (updateDashboard markupIds now (some p) v).attrIndustrialVal = v.attrIndustrialVal ∧
    (updateDashboard markupIds now (some p) v).attrIndustrialBar = v.attrIndustrialBar ∧
    (updateDashboard markupIds now (some p) v).attrWindVal = v.attrWindVal ∧
    (updateDashboard markupIds now (some p) v).attrWindBar = v.attrWindBar ∧
    (updateDashboard markupIds now (some p) v).summaryText = v.summaryText ∧
    (updateDashboard markupIds now (some p) v).mapCalls = v.mapCalls ∧
    (updateDashboard markupIds now (some p) v).carbonDay = v.carbonDay ∧
    (updateDashboard markupIds now (some p) v).carbonBar = v.carbonBar ∧
    (updateDashboard markupIds now (some p) v).advisoryContainer = v.advisoryContainer ∧
    (updateDashboard markupIds now (some p) v).trendChart = v.trendChart ∧
    (updateDashboard markupIds now (some p) v).reportTable = v.reportTable ∧
    (updateDashboard markupIds now (some p) v).otherIds = v.otherIds ∧
    (updateDashboard markupIds now (some p) v).console = v.console ++ ["Pulse sync failure:"] := by
  have hs : ((JSVal.ofField r.health_score).or (JSVal.num 0)).round =
      JSVal.num (mathRound (r.health_score.getD 0)) := by
    cases r.health_score with
    | none => simp [JSVal.ofField, JSVal.or, JSVal.truthy, JSVal.round]
    | some q =>
      by_cases hq : q = 0
      · simp [JSVal.ofField, JSVal.or, JSVal.truthy, JSVal.round, hq]
      · simp [JSVal.ofField, JSVal.or, JSVal.truthy, JSVal.round, hq]
  have hv : updateDashboard markupIds now (some p) v = logFailure (sensorsAndBadge r v) := by
    unfold updateDashboard
    simp only [hl, ha, attributionBars]
  rw [hv]
  simp only [logFailure, sensorsAndBadge, hs, JSVal.mul, JSVal.divLit, JSVal.sub]
  simp

end LiveUpdates

namespace LiveUpdates

/-- Claim C2 as stated fails: on a log that already holds two rows of the identity
AQI/Critical, two calls with that alert leave both rows, so the identity does not have
exactly one row, whether rows are counted by what they show or by their id. -/
theorem C2_duplicate_rows_counterexample :
    ¬ (∃ rows2, (updateIncidentLog noMarkup "12:00:02" (some [sampleAlert "AQI" "Critical"])
          (updateIncidentLog noMarkup "12:00:00" (some [sampleAlert "AQI" "Critical"])
            duplicateLogView)).reportTable = some rows2 ∧
        (pairCount rows2 "AQI" "Critical" = 1 ∨ idCount rows2 "alert-AQI-Critical" = 1)) := by
  rintro ⟨rows2, h, hc⟩
  have hrun : (updateIncidentLog noMarkup "12:00:02" (some [sampleAlert "AQI" "Critical"])
      (updateIncidentLog noMarkup "12:00:00" (some [sampleAlert "AQI" "Critical"])
        duplicateLogView)).reportTable = duplicateLogView.reportTable := by
    decide
  rw [hrun] at h
  simp only [duplicateLogView, Option.some.injEq] at h
  subst h
  revert hc
  decide

/-- Claim C2, amended. `updateIncidentLog` is idempotent: a second call with the same alert
list leaves the page exactly as the first call left it, and the empty list (or no list)
changes nothing. Rows are only ever added: an identity that already has a row under its id
before the calls keeps exactly the rows it had; an identity that has no row and whose id the
page does not carry before the calls has exactly one row after the calls, also when the list
repeats it, as long as no alert of the list with another type or level has the same id
string or brings that id in its markup. Alerts whose types contain no hyphen never share an
id string unless they have the same type and level. -/
theorem C2_incident_log_idempotent (markupIds : String → String → List String)
    (now1 now2 : String) (alerts : List Alert) (v : View) :
    updateIncidentLog markupIds now2 (some alerts)
        (updateIncidentLog markupIds now1 (some alerts) v) =
      updateIncidentLog markupIds now1 (some alerts) v ∧
    updateIncidentLog markupIds now1 (some []) v = v ∧
    updateIncidentLog markupIds now1 none v = v ∧
    (∀ rows : List IncidentRow, v.reportTable = some rows →
      ∃ rows2, (updateIncidentLog markupIds now2 (some alerts)
          (updateIncidentLog markupIds now1 (some alerts) v)).reportTable = some rows2 ∧
        (∀ a ∈ alerts,
          (∃ r ∈ rows, r.id = alertId a ∧ r.type = a.type ∧ r.level = a.level) →
          pairCount rows2 a.type a.level = pairCount rows a.type a.level ∧
          idCount rows2 (alertId a) = idCount rows (alertId a)) ∧
        (∀ a ∈ alerts, getElementById v.otherIds rows (alertId a) = false →
          pairCount rows a.type a.level = 0 →
          (∀ b ∈ alerts, alertId b = alertId a → b.type = a.type ∧ b.level = a.level) →
          (∀ b ∈ alerts, alertId a ∉ markupIds b.type b.level) →
          pairCount rows2 a.type a.level = 1 ∧ idCount rows2 (alertId a) = 1)) ∧
    (∀ a b : Alert, '-' ∉ a.type.data → '-' ∉ b.type.data → alertId a = alertId b →
      a.type = b.type ∧ a.level = b.level) := by
  refine ⟨updateIncidentLog_twice markupIds now1 now2 alerts v, ?_, ?_, ?_,
    alertId_injective_of_no_hyphen⟩
  · unfold updateIncidentLog
    cases v.reportTable <;> rfl
  · unfold updateIncidentLog
    cases v.reportTable <;> rfl
  · intro rows ht
    rw [updateIncidentLog_twice markupIds now1 now2 alerts v]
    cases alerts with
    | nil =>
      refine ⟨rows, ?_, ?_, ?_⟩
      · unfold updateIncidentLog; simp only [ht]
      · intro a ha
        cases ha
      · intro a ha
        cases ha
    | cons c rest =>
      refine ⟨(c :: rest).foldl (insertAlert markupIds now1 v.otherIds) rows, ?_, ?_, ?_⟩
      · unfold updateIncidentLog; simp only [ht]
      · rintro a - ⟨r, hr, hid, -⟩
        exact counts_stay markupIds now1 v.otherIds (c :: rest) rows a
          (getElementById_of_row v.otherIds rows r _ hr hid)
      · intro a ha hnf hp h3 h4
        exact counts_fresh markupIds now1 v.otherIds (c :: rest) rows a ha hnf hp h3 h4

/-- Instance of C2 (amended): a list of two identities that repeats the first, on the empty
log of the sample page; after two calls AQI/Critical has one row. -/
theorem C2_incident_log_idempotent_witness :
    ∃ rows2, (updateIncidentLog noMarkup "12:00:02"
          (some [sampleAlert "AQI" "Critical", sampleAlert "PM25" "High",
            sampleAlert "AQI" "Critical"])
          (updateIncidentLog noMarkup "12:00:00"
            (some [sampleAlert "AQI" "Critical", sampleAlert "PM25" "High",
              sampleAlert "AQI" "Critical"]) sampleView)).reportTable = some rows2 ∧
      pairCount rows2 "AQI" "Critical" = 1 ∧ idCount rows2 "alert-AQI-Critical" = 1 :=
  ((C2_incident_log_idempotent noMarkup "12:00:00" "12:00:02"
    [sampleAlert "AQI" "Critical", sampleAlert "PM25" "High", sampleAlert "AQI" "Critical"]
    sampleView).2.2.2.1 [] rfl).elim fun rows2 h =>
      ⟨rows2, h.1, h.2.2 (sampleAlert "AQI" "Critical") (by decide) (by decide) (by decide)
        (by decide) (by decide)⟩

/-- Claim C3 fails on the code at the alerts ("a-b", "c") and ("a", "b-c"): they differ in
type and in level, both get the id string alert-a-b-c, and on the empty log the second one
is skipped because of the row created for the first, although alone it gets its row. -/
theorem C3_hyphen_collision_merges (markupIds : String → String → List String)
    (now : String) :
    (sampleAlert "a-b" "c").type ≠ (sampleAlert "a" "b-c").type ∧
    (sampleAlert "a-b" "c").level ≠ (sampleAlert "a" "b-c").level ∧
    alertId (sampleAlert "a-b" "c") = "alert-a-b-c" ∧
    alertId (sampleAlert "a" "b-c") = "alert-a-b-c" ∧
    (updateIncidentLog markupIds now
        (some [sampleAlert "a-b" "c", sampleAlert "a" "b-c"]) sampleView).reportTable
      = some [newRow markupIds now (sampleAlert "a-b" "c")] ∧
    (updateIncidentLog markupIds now
        (some [sampleAlert "a" "b-c"]) sampleView).reportTable
      = some [newRow markupIds now (sampleAlert "a" "b-c")] := by
  have hfree : ∀ id : String, id = "alert-a-b-c" →
      getElementById sampleView.otherIds [] id = false := by
    intro id h
    subst h
    decide
  have ha : alertId (sampleAlert "a-b" "c") = "alert-a-b-c" := by decide
  have hb : alertId (sampleAlert "a" "b-c") = "alert-a-b-c" := by decide
  refine ⟨by decide, by decide, ha, hb, ?_, ?_⟩
  · have h1 := insertAlert_fresh markupIds now sampleView.otherIds []
      (sampleAlert "a-b" "c") (hfree _ ha)
    have h2 : getElementById sampleView.otherIds
        [newRow markupIds now (sampleAlert "a-b" "c")] (alertId (sampleAlert "a" "b-c"))
        = true := by
      rw [hb, ← ha, ← h1]
      exact getElementById_insertAlert_self markupIds now _ _ _
    show some (List.foldl (insertAlert markupIds now sampleView.otherIds) []
      [sampleAlert "a-b" "c", sampleAlert "a" "b-c"]) = _
    rw [List.foldl_cons, h1, List.foldl_cons, insertAlert_found _ _ _ _ _ h2]
    rfl
  · have h1 := insertAlert_fresh markupIds now sampleView.otherIds []
      (sampleAlert "a" "b-c") (hfree _ hb)
    show some (List.foldl (insertAlert markupIds now sampleView.otherIds) []
      [sampleAlert "a" "b-c"]) = _
    rw [List.foldl_cons, h1]
    rfl

/-- Claim C4 as stated fails: a point whose `heat_pollution_index` is present with value 0,
with temperature 2 and aqi 50, gets the series value 1 and not its index 0. -/
theorem C4_zero_index_counterexample :
    ¬ (∀ (h : HistoryPoint) (q : ℚ), h.heat_pollution_index = some q →
        interactionValue h = JSVal.num q) := by
  intro H
  have h := H (samplePoint (some 0) (some 2) (some 50)) 0 rfl
  simp [interactionValue, samplePoint, JSVal.ofField, JSVal.or, JSVal.truthy, JSVal.mul,
    JSVal.divLit] at h

/-- Claim C4, amended. The heat-pollution value of a history point is its
`heat_pollution_index` when that field is present and not 0; when the field is missing or 0
it is `temperature * aqi / 100` when both are present, and 0 when one of them is missing. -/
theorem C4_interaction_fallback (h : HistoryPoint) :
    (∀ q : ℚ, h.heat_pollution_index = some q → q ≠ 0 → interactionValue h = JSVal.num q) ∧
    (∀ t a : ℚ, (h.heat_pollution_index = none ∨ h.heat_pollution_index = some 0) →
      h.temperature = some t → h.aqi = some a →
      interactionValue h = JSVal.num (t * a / 100)) ∧
    ((h.heat_pollution_index = none ∨ h.heat_pollution_index = some 0) →
      (h.temperature = none ∨ h.aqi = none) → interactionValue h = JSVal.num 0) ∧
    interactionValue (samplePoint (some 7) none none) = JSVal.num 7 ∧
    interactionValue (samplePoint none (some 2) (some 50)) = JSVal.num 1 ∧
    interactionValue (samplePoint none none none) = JSVal.num 0 ∧
    interactionValue (samplePoint (some 0) (some 2) (some 50)) = JSVal.num 1 := by
  have zero : ∀ x : Option ℚ, (x = none ∨ x = some 0) →
      ∀ w : JSVal, (JSVal.ofField x).or w = w := by
    intro x hx w
    rcases hx with hx | hx <;> subst hx <;> simp [JSVal.ofField, JSVal.or, JSVal.truthy]
  have second : ∀ (g : HistoryPoint) (t a : ℚ),
      (g.heat_pollution_index = none ∨ g.heat_pollution_index = some 0) →
      g.temperature = some t → g.aqi = some a →
      interactionValue g = JSVal.num (t * a / 100) := by
    intro g t a hi ht ha
    unfold interactionValue
    rw [zero _ hi, ht, ha]
    by_cases hz : t * a / 100 = 0
    · simp [JSVal.ofField, JSVal.mul, JSVal.divLit, JSVal.or, JSVal.truthy, hz]
    · simp [JSVal.ofField, JSVal.mul, JSVal.divLit, JSVal.or, JSVal.truthy, hz]
  have third : ∀ g : HistoryPoint,
      (g.heat_pollution_index = none ∨ g.heat_pollution_index = some 0) →
      (g.temperature = none ∨ g.aqi = none) → interactionValue g = JSVal.num 0 := by
    intro g hi hm
    unfold interactionValue
    rw [zero _ hi]
    rcases hm with hm | hm
    · rw [hm]
      simp [JSVal.ofField, JSVal.mul, JSVal.divLit, JSVal.or, JSVal.truthy]
    · rw [hm]
      cases g.temperature <;>
        simp [JSVal.ofField, JSVal.mul, JSVal.divLit, JSVal.or, JSVal.truthy]
  refine ⟨?_, second h, third h, ?_, ?_, ?_, ?_⟩
  · intro q hq hne
    unfold interactionValue
    rw [hq]
    simp [JSVal.ofField, JSVal.or, JSVal.truthy, hne]
  · simp [interactionValue, samplePoint, JSVal.ofField, JSVal.or, JSVal.truthy]
  · rw [second _ 2 50 (Or.inl rfl) rfl rfl]
    norm_num
  · exact third _ (Or.inl rfl) (Or.inl rfl)
  · rw [second _ 2 50 (Or.inr rfl) rfl rfl]
    norm_num

/-- Instance of C4 (amended): the point with index 7 and nothing else gets 7. -/
theorem C4_interaction_fallback_witness :
    interactionValue (samplePoint (some 7) none none) = JSVal.num 7 :=
  (C4_interaction_fallback (samplePoint (some 7) none none)).1 7 rfl (by decide)

end LiveUpdates

/-! ## Claims on `dashboard.js` and on both scripts -/

namespace Dashboard

/-- Claim C8. Selecting the metric that is already current changes nothing; selecting
another key that has a `metricConfig` entry makes it current and sets the label, the border
colour, the point colour and the gradient of the series to that entry, restyles the buttons
and leaves the labels, the data points and every other part of the page as they were;
selecting the same key twice in a row is the same as selecting it once. -/
theorem C8_metric_selection (key : String) (p : Page) :
    (key = p.currentMetric → metricClick key p = p) ∧
    (∀ cfg : MetricCfg, key ≠ p.currentMetric → metricConfig key = some cfg →
      (metricClick key p).currentMetric = key ∧
      (metricClick key p).dataset.label = cfg.label ∧
      (metricClick key p).dataset.borderColor = cfg.color ∧
      (metricClick key p).dataset.pointBackgroundColor = cfg.color ∧
      (metricClick key p).dataset.backgroundColor =
        { stop0 := cfg.gradient.1, stop1 := cfg.gradient.2 } ∧
      (metricClick key p).labels = p.labels ∧
      (metricClick key p).dataset.data = p.dataset.data ∧
      (metricClick key p).buttons = p.buttons.map (restyleButton key) ∧
      (metricClick key p).connectionStatus = p.connectionStatus ∧
      (metricClick key p).healthScoreText = p.healthScoreText ∧
      (metricClick key p).healthScoreClass = p.healthScoreClass ∧
      (metricClick key p).aqiValue = p.aqiValue ∧
      (metricClick key p).pm25Val = p.pm25Val ∧
      (metricClick key p).co2Val = p.co2Val ∧
      (metricClick key p).aqiForecast = p.aqiForecast ∧
      (metricClick key p).alertList = p.alertList ∧
      (metricClick key p).console = p.console) ∧
    metricClick key (metricClick key p) = metricClick key p ∧
    (metricConfig "aqi").isSome = true ∧ (metricConfig "pm25").isSome = true := by
  have current : (metricClick key p).currentMetric = key := by
    unfold metricClick
    by_cases h : key = p.currentMetric
    · simp only [h, if_true]
    · simp only [h, if_false]
      cases metricConfig key <;> rfl
  refine ⟨?_, ?_, ?_, rfl, rfl⟩
  · intro h
    simp [metricClick, h]
  · intro cfg hne hcfg
    unfold metricClick
    simp only [hne, if_false, hcfg]
    simp
  · have noop : ∀ q : Page, key = q.currentMetric → metricClick key q = q := by
      intro q h
      simp [metricClick, h]
    exact noop _ current.symm

/-- Instance of C8: clicking PM 2.5 on the freshly loaded page. -/
theorem C8_metric_selection_witness :
    (metricClick "pm25" samplePage).currentMetric = "pm25" ∧
    (metricClick "pm25" samplePage).dataset.label = "PM 2.5" ∧
    (metricClick "pm25" samplePage).dataset.data = samplePage.dataset.data :=
  have h := (C8_metric_selection "pm25" samplePage).2.1
    { label := "PM 2.5", color := "#06b6d4",
      gradient := ("rgba(6, 182, 212, 0.4)", "rgba(6, 182, 212, 0)") }
    (by decide) rfl
  ⟨h.1, h.2.1, h.2.2.2.2.2.2.1⟩

end Dashboard

namespace LiveUpdates

/-- Instance of C9: a tick whose reading has AQI 150 and no attribution, on the sample
page. -/
theorem C9_missing_attribution_tick_witness :
    (updateDashboard noMarkup "12:00:00"
        (some (samplePayload (some (sampleReading 150 none)))) sampleView).aqiBadgeText = badgeText 150 ∧
    (updateDashboard noMarkup "12:00:00"
        (some (samplePayload (some (sampleReading 150 none)))) sampleView).summaryText = sampleView.summaryText ∧
    (updateDashboard noMarkup "12:00:00"
        (some (samplePayload (some (sampleReading 150 none)))) sampleView).console = sampleView.console ++ ["Pulse sync failure:"] :=
  have h := C9_missing_attribution_tick noMarkup "12:00:00"
    (samplePayload (some (sampleReading 150 none))) sampleView (sampleReading 150 none) rfl rfl
  ⟨h.2.2.2.2.2.2.1, h.2.2.2.2.2.2.2.2.2.2.2.2.2.2.1,
    h.2.2.2.2.2.2.2.2.2.2.2.2.2.2.2.2.2.2.2.2.2.2⟩

end LiveUpdates

theorem suffix_eq_drop {α : Type} (xs pre pts : List α) (h : xs = pre ++ pts) :
    pts = xs.drop (xs.length - pts.length) := by
  subst h
  rw [List.length_append, Nat.add_sub_cancel]
  exact (List.drop_left pre pts).symm

/-- Claim C5 as stated fails for `dashboard.js`: its chart step has no window, so a history
of 30 points is not cut to the last 20. -/
theorem C5_dashboard_window_counterexample :
    ¬ (∀ (clock : Option String → String) (p : Payload) (pg : Dashboard.Page) (r : Reading)
        (history : List HistoryPoint),
        Dashboard.errorSet p = false → p.latest = some r → p.history = some history →
        (Dashboard.updateDashboard clock (some p) pg).labels.length
          = min 20 history.length) := by
  intro H
  have h := H Dashboard.sampleClock Dashboard.payload30 Dashboard.samplePage _ _ rfl rfl rfl
  simp [Dashboard.updateDashboard, Dashboard.payload30, Dashboard.errorSet,
    Dashboard.chartStep] at h

/-- Claim C5, amended. `updateTrendChart` of `live_updates.js` (chart canvas present, the
plotted timestamps having a time part) plots exactly the last `min 20 n` points of a history
of length `n`, in their order, and the labels and both series have that length (30 gives the
last 20, 5 gives all 5); the chart step of `updateDashboard` of `dashboard.js` plots all `n`
points of the history in their order, labels and series of length `n`. -/
theorem C5_chart_window (history : List HistoryPoint) :
    (∀ v : LiveUpdates.View, v.trendCanvas = true →
      (∀ h ∈ sliceLast 20 history, (LiveUpdates.timeLabel h).isSome = true) →
      ∃ (v1 : LiveUpdates.View) (chart : LiveUpdates.TrendChart) (pre pts : List HistoryPoint),
        LiveUpdates.updateTrendChart history v = Except.ok v1 ∧
        v1.trendChart = some chart ∧
        history = pre ++ pts ∧
        pts.length = min 20 history.length ∧
        chart.labels.map some = pts.map LiveUpdates.timeLabel ∧
        chart.aqiData = pts.map (fun h => JSVal.ofField h.aqi) ∧
        chart.interactionData = pts.map LiveUpdates.interactionValue ∧
        chart.labels.length = min 20 history.length ∧
        chart.aqiData.length = min 20 history.length ∧
        chart.interactionData.length = min 20 history.length ∧
        (history.length = 30 → chart.labels.length = 20) ∧
        (history.length = 5 → chart.labels.length = 5)) ∧
    (∀ (clock : Option String → String) (p : Payload) (pg : Dashboard.Page) (r : Reading),
      Dashboard.errorSet p = false → p.latest = some r → p.history = some history →
      (Dashboard.updateDashboard clock (some p) pg).labels
        = history.map (fun h => clock h.timestamp) ∧
      (Dashboard.updateDashboard clock (some p) pg).dataset.data
        = history.map (fun h => Dashboard.HistoryPoint.get h pg.currentMetric) ∧
      (Dashboard.updateDashboard clock (some p) pg).labels.length = history.length ∧
      (Dashboard.updateDashboard clock (some p) pg).dataset.data.length = history.length) := by
  constructor
  · intro v hc hl
    obtain ⟨labels, hlab⟩ := LiveUpdates.mapThrowing_total _ _ hl
    have hmap := LiveUpdates.mapThrowing_eq_some _ _ _ hlab
    have hlen : labels.length = min 20 history.length := by
      have := congrArg List.length hmap
      simp only [List.length_map] at this
      rw [this, LiveUpdates.sliceLast_length]
    have hrun : ∃ (v1 : LiveUpdates.View) (chart : LiveUpdates.TrendChart),
        LiveUpdates.updateTrendChart history v = Except.ok v1 ∧ v1.trendChart = some chart ∧
        chart.labels = labels ∧
        chart.aqiData = (sliceLast 20 history).map (fun h => JSVal.ofField h.aqi) ∧
        chart.interactionData = (sliceLast 20 history).map LiveUpdates.interactionValue := by
      unfold LiveUpdates.updateTrendChart
      simp only [hc, hlab]
      cases v.trendChart with
      | none => exact ⟨_, _, rfl, rfl, rfl, rfl, rfl⟩
      | some c => exact ⟨_, _, rfl, rfl, rfl, rfl, rfl⟩
    obtain ⟨v1, chart, h1, h2, h3, h4, h5⟩ := hrun
    refine ⟨v1, chart, history.take (history.length - 20), sliceLast 20 history, h1, h2,
      LiveUpdates.sliceLast_suffix 20 history, LiveUpdates.sliceLast_length 20 history,
      ?_, h4, h5, ?_, ?_, ?_, ?_, ?_⟩
    · rw [h3]; exact hmap
    · rw [h3]; exact hlen
    · rw [h4, List.length_map, LiveUpdates.sliceLast_length]
    · rw [h5, List.length_map, LiveUpdates.sliceLast_length]
    · intro hn; rw [h3, hlen, hn]; rfl
    · intro hn; rw [h3, hlen, hn]; rfl
  · intro clock p pg r he hl hh
    have hrun : Dashboard.updateDashboard clock (some p) pg =
        Dashboard.chartStep clock history (Dashboard.valuesAndAlerts p r
          { pg with connectionStatus :=
              Dashboard.classListRemove ["opacity-0"] pg.connectionStatus }) := by
      unfold Dashboard.updateDashboard
      simp only [he, hl, hh]
      rfl
    rw [hrun]
    refine ⟨rfl, rfl, ?_, ?_⟩
    · simp [Dashboard.chartStep]
    · simp [Dashboard.chartStep]

/-- Instance of C5 (amended) at the thirty points with AQI 1 to 30: `updateTrendChart`
plots twenty points, which are the last twenty (AQI 11 to 30), and the chart step of
`dashboard.js` plots all thirty. -/
theorem C5_chart_window_witness :
    (∃ (v1 : LiveUpdates.View) (chart : LiveUpdates.TrendChart),
      LiveUpdates.updateTrendChart Dashboard.history30 LiveUpdates.sampleView
        = Except.ok v1 ∧
      v1.trendChart = some chart ∧
      chart.labels.length = 20 ∧ chart.aqiData.length = 20 ∧
      chart.interactionData.length = 20 ∧
      chart.aqiData = (List.range 20).map (fun i => JSVal.num ((i : ℚ) + 11))) ∧
    (Dashboard.updateDashboard Dashboard.sampleClock
        (some (Dashboard.payloadWith Dashboard.history30)) Dashboard.samplePage).labels.length
      = 30 ∧
    (Dashboard.updateDashboard Dashboard.sampleClock
        (some (Dashboard.payloadWith Dashboard.history30))
        Dashboard.samplePage).dataset.data.length = 30 :=
  have hlen : Dashboard.history30.length = 30 := by decide
  have hmin : min 20 Dashboard.history30.length = 20 := by decide
  have hd := (C5_chart_window Dashboard.history30).2 Dashboard.sampleClock
    (Dashboard.payloadWith Dashboard.history30) Dashboard.samplePage _ rfl rfl rfl
  have hl := (C5_chart_window Dashboard.history30).1 LiveUpdates.sampleView rfl (by decide)
  ⟨hl.elim fun v1 h1 => h1.elim fun chart h2 => h2.elim fun pre h3 => h3.elim fun pts h4 =>
      ⟨v1, chart, h4.1, h4.2.1, h4.2.2.2.2.2.2.2.1.trans hmin,
        h4.2.2.2.2.2.2.2.2.1.trans hmin, h4.2.2.2.2.2.2.2.2.2.1.trans hmin,
        h4.2.2.2.2.2.1.trans (by
          rw [suffix_eq_drop Dashboard.history30 pre pts h4.2.2.1, h4.2.2.2.1, hmin, hlen]
          simp [Dashboard.history30, Dashboard.timedPoint, JSVal.ofField, List.range,
            List.range.loop]
          norm_num)⟩,
    hd.2.2.1.trans hlen, hd.2.2.2.trans hlen⟩

/-- Claim C7 as stated fails for `dashboard.js`: a payload with neither `latest` nor
`error` makes the tick remove the class `opacity-0` from the connection badge before it
faults, so the page is not left as it was up to the console. -/
theorem C7_dashboard_mutation_counterexample :
    ¬ (∀ (clock : Option String → String) (p : Payload) (pg : Dashboard.Page),
        p.latest = none →
        ∃ lines : List String, Dashboard.updateDashboard clock (some p) pg =
          { pg with console := pg.console ++ lines }) := by
  intro H
  obtain ⟨lines, h⟩ := H Dashboard.sampleClock Dashboard.emptyPayload Dashboard.samplePage rfl
  have hc : (Dashboard.updateDashboard Dashboard.sampleClock (some Dashboard.emptyPayload)
      Dashboard.samplePage).connectionStatus = Dashboard.samplePage.connectionStatus := by
    rw [h]
  revert hc
  decide

/-- Claim C7, amended. For every payload that lacks `latest`: the tick of `live_updates.js`
leaves the page exactly as it was (it logs nothing either); the tick of `dashboard.js`
always returns, adds one console line and changes nothing else, except that a payload without
a non-empty `error` first has the class `opacity-0` removed from the connection badge. -/
theorem C7_missing_latest_tick (markupIds : String → String → List String) (now : String)
    (clock : Option String → String) (p : Payload)
    (v : LiveUpdates.View) (pg : Dashboard.Page) (h : p.latest = none) :
    LiveUpdates.updateDashboard markupIds now (some p) v = v ∧
    (Dashboard.errorSet p = true →
      Dashboard.updateDashboard clock (some p) pg =
        { pg with console := pg.console ++ ["Update Error:"] }) ∧
    (Dashboard.errorSet p = false →
      Dashboard.updateDashboard clock (some p) pg =
        { pg with
          connectionStatus := Dashboard.classListRemove ["opacity-0"] pg.connectionStatus
          console := pg.console ++ ["Update Error:"] }) := by
  refine ⟨?_, ?_, ?_⟩
  · unfold LiveUpdates.updateDashboard
    simp only [h]
  · intro he
    unfold Dashboard.updateDashboard
    simp only [he, if_true]
    rfl
  · intro he
    unfold Dashboard.updateDashboard
    simp only [he, h]
    rfl

/-- Instance of C7 (amended): the payload with no field at all on both sample pages. -/
theorem C7_missing_latest_tick_witness :
    LiveUpdates.updateDashboard LiveUpdates.noMarkup "12:00:00"
        (some Dashboard.emptyPayload) LiveUpdates.sampleView
      = LiveUpdates.sampleView ∧
    (Dashboard.updateDashboard Dashboard.sampleClock (some Dashboard.emptyPayload)
        Dashboard.samplePage).connectionStatus = [] :=
  have h := C7_missing_latest_tick LiveUpdates.noMarkup "12:00:00" Dashboard.sampleClock
    Dashboard.emptyPayload
    LiveUpdates.sampleView Dashboard.samplePage rfl
  ⟨h.1, (congrArg Dashboard.Page.connectionStatus (h.2.2 rfl)).trans (by decide)⟩
